import Mathlib

/-!
Shallow embedding of the WebAR floor-placement application (home1344/WebAR):
the AR session negotiation loop (`ARSession.start`), the model fetch/cache
(`ModelLoader`), the gesture handlers (`GestureHandler.handleRotation`,
`GestureHandler.handleScale`), the tap-to-place handler (`ARSession.onSelect`)
and the orchestrator's `reloadModel`, together with theorems settling the
specification claims about them.

JavaScript numbers are modelled as exact rationals (`ℚ`); byte counts and
HTTP statuses as `ℕ`; `Math.round` on a non-negative exact ratio `r/t * 100`
is the natural-number expression `(200*r + t) / (2*t)`.
-/

/-! ## Session negotiation — `ARSession.start` (src/modules/ar-session.js) -/

/-- A DOMException-style error as thrown by `navigator.xr.requestSession`:
a `name` (e.g. `"NotSupportedError"`) and a message. -/
structure XRError where
  name : String
  message : String
deriving DecidableEq, Repr

/-- One entry of `sessionInitCandidates`: an `XRSessionInit` dictionary with
required features, optional features, and whether a `domOverlay` root is set. -/
structure XRSessionInit where
  requiredFeatures : List String
  optionalFeatures : List String
  domOverlay : Bool
deriving DecidableEq, Repr

/-- The `sessionInitCandidates` array of the logger-instrumented
`src/modules/ar-session.js` (two candidates).  `overlayRoot` is whether
`document.getElementById('ui-overlay')` found the overlay root. -/
def sessionInitCandidates (overlayRoot : Bool) : List XRSessionInit :=
  [ { requiredFeatures := ["hit-test"], optionalFeatures := ["dom-overlay"],
      domOverlay := overlayRoot },
    { requiredFeatures := ["hit-test"], optionalFeatures := [], domOverlay := false } ]

/-- The `sessionInitCandidates` array of the legacy `ar-session.js` variant
(four candidates: full feature set with UI overlay, reduced, minimal, empty). -/
def sessionInitCandidatesLegacy (overlayRoot : Bool) : List XRSessionInit :=
  [ { requiredFeatures := ["hit-test"], optionalFeatures := ["dom-overlay"],
      domOverlay := overlayRoot },
    { requiredFeatures := [], optionalFeatures := ["hit-test", "dom-overlay"],
      domOverlay := overlayRoot },
    { requiredFeatures := [], optionalFeatures := ["hit-test"], domOverlay := false },
    { requiredFeatures := [], optionalFeatures := [], domOverlay := false } ]

/-- The `for (const sessionInit of sessionInitCandidates)` loop of
`ARSession.start`: `request` models `navigator.xr.requestSession('immersive-ar', c)`
(returning a session id or throwing an `XRError`); `lastError` is the `lastError`
variable.  On success the loop breaks with the session; on a
`NotSupportedError` it records the error and continues; on any other error it
rethrows.  After the loop, `if (!this.session) throw lastError || new
Error('Failed to start AR session')`. -/
def requestSessionLoop (request : XRSessionInit → Except XRError Nat) :
    List XRSessionInit → Option XRError → Except XRError Nat
  | [], none => .error { name := "Error", message := "Failed to start AR session" }
  | [], some e => .error e
  | c :: rest, _lastError =>
    match request c with
    | .ok s => .ok s
    | .error e =>
      if e.name = "NotSupportedError" then requestSessionLoop request rest (some e)
      else .error e

/-- `ARSession.start`'s negotiation over a candidate list, beginning with
`lastError = null`. -/
def startSession (request : XRSessionInit → Except XRError Nat)
    (candidates : List XRSessionInit) : Except XRError Nat :=
  requestSessionLoop request candidates none

/-- The list of candidates on which the loop actually calls
`navigator.xr.requestSession`, in order. -/
def attemptedCandidates (request : XRSessionInit → Except XRError Nat) :
    List XRSessionInit → List XRSessionInit
  | [] => []
  | c :: rest =>
    match request c with
    | .ok _ => [c]
    | .error e =>
      if e.name = "NotSupportedError" then c :: attemptedCandidates request rest
      else [c]

/-- If every candidate fails with `NotSupportedError`, the loop ends with a
`NotSupportedError` (either the accumulated one or the last one recorded). -/
lemma requestSessionLoop_all_notSupported (request : XRSessionInit → Except XRError Nat) :
    ∀ (cands : List XRSessionInit) (acc : Option XRError),
      (∀ c ∈ cands, ∃ e, request c = .error e ∧ e.name = "NotSupportedError") →
      (cands = [] → ∃ e₀, acc = some e₀ ∧ e₀.name = "NotSupportedError") →
      ∃ e, requestSessionLoop request cands acc = .error e ∧ e.name = "NotSupportedError" := by
  intro cands
  induction cands with
  | nil =>
    intro acc _ hacc
    obtain ⟨e₀, he₀, hn₀⟩ := hacc rfl
    exact ⟨e₀, by simp [requestSessionLoop, he₀], hn₀⟩
  | cons c rest ih =>
    intro acc hall _
    obtain ⟨e, he, hn⟩ := hall c (List.mem_cons_self c rest)
    have step : requestSessionLoop request (c :: rest) acc =
        requestSessionLoop request rest (some e) := by
      simp [requestSessionLoop, he, hn]
    rw [step]
    exact ih (some e) (fun c' hc' => hall c' (List.mem_cons_of_mem c hc'))
      (fun _ => ⟨e, rfl, hn⟩)

/-- C1: `start()` tries the capability-descriptor candidates in priority order
and stops at the first success: if the first two candidates fail with
"not supported" and the third succeeds, the session is the third candidate's
and exactly the first three candidates are attempted (no fourth); if every
candidate fails with "not supported", `start()` fails with a NotSupported
error. -/
theorem start_fallback_priority :
    (∀ (request : XRSessionInit → Except XRError Nat)
       (c₁ c₂ c₃ : XRSessionInit) (rest : List XRSessionInit)
       (e₁ e₂ : XRError) (s : Nat),
       request c₁ = .error e₁ → e₁.name = "NotSupportedError" →
       request c₂ = .error e₂ → e₂.name = "NotSupportedError" →
       request c₃ = .ok s →
       startSession request (c₁ :: c₂ :: c₃ :: rest) = .ok s ∧
       attemptedCandidates request (c₁ :: c₂ :: c₃ :: rest) = [c₁, c₂, c₃]) ∧
    (∀ (request : XRSessionInit → Except XRError Nat)
       (candidates : List XRSessionInit), candidates ≠ [] →
       (∀ c ∈ candidates, ∃ e, request c = .error e ∧ e.name = "NotSupportedError") →
       ∃ e, startSession request candidates = .error e ∧
         e.name = "NotSupportedError") := by
  constructor
  · intro request c₁ c₂ c₃ rest e₁ e₂ s h₁ hn₁ h₂ hn₂ h₃
    constructor
    · simp [startSession, requestSessionLoop, h₁, hn₁, h₂, hn₂, h₃]
    · simp [attemptedCandidates, h₁, hn₁, h₂, hn₂, h₃]
  · intro request candidates hne hall
    exact requestSessionLoop_all_notSupported request candidates none hall
      (fun h => absurd h hne)

/-- A concrete `navigator.xr.requestSession` behaviour: only the minimal
hit-test descriptor (no required features, optional `["hit-test"]`) succeeds;
everything else raises `NotSupportedError`. -/
def demoRequest : XRSessionInit → Except XRError Nat :=
  fun c =>
    match c.requiredFeatures, c.optionalFeatures with
    | [], ["hit-test"] => .ok 1
    | _, _ => .error { name := "NotSupportedError", message := "not supported" }

/-- Witness for C1: on the legacy four-candidate list the first two candidates
fail with `NotSupportedError`, the third succeeds, and exactly three
candidates are attempted. -/
theorem start_fallback_priority_witness :
    startSession demoRequest (sessionInitCandidatesLegacy true) = .ok 1 ∧
    attemptedCandidates demoRequest (sessionInitCandidatesLegacy true) =
      [ { requiredFeatures := ["hit-test"], optionalFeatures := ["dom-overlay"],
          domOverlay := true },
        { requiredFeatures := [], optionalFeatures := ["hit-test", "dom-overlay"],
          domOverlay := true },
        { requiredFeatures := [], optionalFeatures := ["hit-test"],
          domOverlay := false } ] :=
  start_fallback_priority.1 demoRequest
    { requiredFeatures := ["hit-test"], optionalFeatures := ["dom-overlay"],
      domOverlay := true }
    { requiredFeatures := [], optionalFeatures := ["hit-test", "dom-overlay"],
      domOverlay := true }
    { requiredFeatures := [], optionalFeatures := ["hit-test"], domOverlay := false }
    [ { requiredFeatures := [], optionalFeatures := [], domOverlay := false } ]
    { name := "NotSupportedError", message := "not supported" }
    { name := "NotSupportedError", message := "not supported" }
    1 rfl rfl rfl rfl rfl

/-! ## Model fetch/cache — `ModelLoader` (src/modules/model-loader.js) -/

/-- `response.ok`: HTTP status in the range 200–299. -/
def respOk (status : Nat) : Bool := 200 ≤ status && status ≤ 299

/-- `Math.round((receivedLength / total) * 100)` on the exact ratio:
`⌊receivedLength/total * 100 + 1/2⌋` as a natural-number division. -/
def progressPercent (receivedLength total : Nat) : Nat :=
  (200 * receivedLength + total) / (2 * total)

/-- The progress values reported by the `while (true)` reader loop of
`fetchWithProgress`: one callback per chunk, at the cumulative byte count
after that chunk. -/
def progressEvents (total : Nat) : List Nat → Nat → List Nat
  | [], _ => []
  | value :: rest, receivedLength =>
    progressPercent (receivedLength + value) total ::
      progressEvents total rest (receivedLength + value)

/-- The network's behaviour for one URL: either the transport fails (`fetch`
rejects), or a response arrives with a status, status text, an optional
`content-length` header, and a list of body chunk sizes. -/
inductive NetBehavior where
  | transportFail (msg : String)
  | response (status : Nat) (statusText : String) (contentLength : Option Nat)
      (chunks : List Nat)
deriving DecidableEq, Repr

/-- Errors a `loadModel` call can throw: an abort (the in-flight request was
cancelled), a transport failure, or a non-success HTTP status. -/
inductive LoadError where
  | abortError
  | transportFail (msg : String)
  | httpError (status : Nat) (statusText : String)
deriving DecidableEq, Repr

/-- The mutable fields of `ModelLoader`: the `loadedModels` cache (URL →
object-URL handle), the `currentLoadingModel` marker, `loadingProgress`, and
whether an `AbortController` is installed. -/
structure LoaderState where
  loadedModels : List (String × String)
  currentLoadingModel : Option String
  loadingProgress : Nat
  abortController : Bool
deriving DecidableEq, Repr

/-- `Map.get`/`Map.has` over the association-list model of `loadedModels`. -/
def mapGet : List (String × String) → String → Option String
  | [], _ => none
  | (k, v) :: rest, key => if k = key then some v else mapGet rest key

/-- `ModelLoader.cancelCurrentLoad`: if an `AbortController` is installed,
abort it and drop it; otherwise do nothing. -/
def cancelCurrentLoad (st : LoaderState) : LoaderState :=
  if st.abortController then { st with abortController := false } else st

/-- `URL.createObjectURL` for the blob fetched from `url`, modelled as a
deterministic locally-dereferenceable handle. -/
def createObjectURL (url : String) : String := "blob:" ++ url

/-- The response part of `fetchWithProgress`, given the network behaviour and
whether `cancelCurrentLoad` aborted the request while it was in flight:
either an error (abort or transport), or the final status/statusText paired
with the list of reported progress percentages.  A non-ok response is
returned unread (no progress); a response without a `content-length` header
is returned without progress reporting. -/
def fetchWithProgress (net : NetBehavior) (abortedDuring : Bool) :
    Except LoadError ((Nat × String) × List Nat) :=
  if abortedDuring then .error .abortError
  else
    match net with
    | .transportFail msg => .error (.transportFail msg)
    | .response status statusText contentLength chunks =>
      if respOk status then
        match contentLength with
        | none => .ok ((status, statusText), [])
        | some total => .ok ((status, statusText), progressEvents total chunks 0)
      else .ok ((status, statusText), [])

/-- The observable outcome of one `ModelLoader.loadModel` call: the new
loader state, the returned handle or thrown error, how many network requests
were issued, and the progress percentages delivered to `onProgress`. -/
structure LoadOutcome where
  state : LoaderState
  result : Except LoadError String
  networkRequests : Nat
  progress : List Nat
deriving Repr

/-- `ModelLoader.loadModel(url, onProgress)`: return the cached handle if the
URL is cached (no network); otherwise set the loading marker and the abort
controller, fetch with progress, and on success cache and return the object
URL of the body blob; on a non-ok status throw an HTTP error; rethrow
abort/transport failures.  The `finally` block clears `currentLoadingModel`
and resets `loadingProgress`. -/
def loadModel (st : LoaderState) (url : String) (net : NetBehavior)
    (abortedDuring : Bool) : LoadOutcome :=
  match mapGet st.loadedModels url with
  | some cached => ⟨st, .ok cached, 0, []⟩
  | none =>
    match fetchWithProgress net abortedDuring with
    | .error .abortError =>
      ⟨{ st with
          currentLoadingModel := none
          loadingProgress := 0
          abortController := false },
       .error .abortError, 1, []⟩
    | .error e =>
      ⟨{ st with
          currentLoadingModel := none
          loadingProgress := 0
          abortController := true },
       .error e, 1, []⟩
    | .ok ((status, statusText), events) =>
      if respOk status then
        ⟨{ st with
            loadedModels := (url, createObjectURL url) :: st.loadedModels
            currentLoadingModel := none
            loadingProgress := 0
            abortController := true },
         .ok (createObjectURL url), 1, events⟩
      else
        ⟨{ st with
            currentLoadingModel := none
            loadingProgress := 0
            abortController := true },
         .error (.httpError status statusText), 1, []⟩

/-- A successful non-cached `loadModel` call returns the object URL of the
body blob, prepends it to the cache, and issues exactly one network request. -/
lemma loadModel_ok_inv (st : LoaderState) (url : String) (net : NetBehavior)
    (ab : Bool) (h : String)
    (h0 : mapGet st.loadedModels url = none)
    (h1 : (loadModel st url net ab).result = .ok h) :
    h = createObjectURL url ∧
    (loadModel st url net ab).state.loadedModels =
      (url, createObjectURL url) :: st.loadedModels ∧
    (loadModel st url net ab).networkRequests = 1 := by
  unfold loadModel at h1 ⊢
  rw [h0] at h1 ⊢
  cases hf : fetchWithProgress net ab with
  | error e =>
    rw [hf] at h1
    cases e <;> simp at h1
  | ok pr =>
    obtain ⟨⟨status, statusText⟩, events⟩ := pr
    rw [hf] at h1
    by_cases hok : respOk status = true
    · simp [hok] at h1
      subst h1
      simp [hok]
    · simp [hok] at h1

/-- A `loadModel` call on a cached URL returns the cached handle immediately:
no state change, no network request, no progress reporting. -/
lemma loadModel_cache_hit (st : LoaderState) (url v : String) (net : NetBehavior)
    (ab : Bool) (h : mapGet st.loadedModels url = some v) :
    loadModel st url net ab = ⟨st, .ok v, 0, []⟩ := by
  unfold loadModel
  rw [h]

/-- C2: after a first successful `load(u)` on an uncached URL, a second
`load(u)` performs no network request and returns exactly the handle the
first call stored in the cache; across the two calls exactly one network
request is issued. -/
theorem loadModel_idempotent_cached (st : LoaderState) (url : String)
    (net net' : NetBehavior) (ab ab' : Bool) (h : String)
    (h0 : mapGet st.loadedModels url = none)
    (h1 : (loadModel st url net ab).result = .ok h) :
    mapGet (loadModel st url net ab).state.loadedModels url = some h ∧
    loadModel (loadModel st url net ab).state url net' ab' =
      ⟨(loadModel st url net ab).state, .ok h, 0, []⟩ ∧
    (loadModel st url net ab).networkRequests +
      (loadModel (loadModel st url net ab).state url net' ab').networkRequests = 1 := by
  obtain ⟨hh, hcache, hreq⟩ := loadModel_ok_inv st url net ab h h0 h1
  have hget : mapGet (loadModel st url net ab).state.loadedModels url = some h := by
    rw [hcache, hh]
    simp [mapGet]
  have hsecond : loadModel (loadModel st url net ab).state url net' ab' =
      ⟨(loadModel st url net ab).state, .ok h, 0, []⟩ :=
    loadModel_cache_hit _ url h net' ab' hget
  refine ⟨hget, hsecond, ?_⟩
  rw [hsecond, hreq]
  rfl

/-- C4: a `load(u)` that fails (non-success HTTP status or transport failure)
throws an error carrying the status or message, and afterwards the cache
holds no entry for `u`; in general, no failure path (abort included) ever
mutates the cache. -/
theorem loadModel_failure_leaves_no_cache_entry :
    (∀ (st : LoaderState) (url : String) (status : Nat) (statusText : String)
       (clen : Option Nat) (chunks : List Nat),
       mapGet st.loadedModels url = none → respOk status = false →
       (loadModel st url (.response status statusText clen chunks) false).result =
         .error (.httpError status statusText) ∧
       mapGet (loadModel st url
         (.response status statusText clen chunks) false).state.loadedModels url = none) ∧
    (∀ (st : LoaderState) (url msg : String),
       mapGet st.loadedModels url = none →
       (loadModel st url (.transportFail msg) false).result =
         .error (.transportFail msg) ∧
       mapGet (loadModel st url (.transportFail msg) false).state.loadedModels url
         = none) ∧
    (∀ (st : LoaderState) (url : String) (net : NetBehavior) (ab : Bool)
       (e : LoadError),
       (loadModel st url net ab).result = .error e →
       (loadModel st url net ab).state.loadedModels = st.loadedModels) := by
  refine ⟨?_, ?_, ?_⟩
  · intro st url status statusText clen chunks h0 hok
    refine ⟨?_, ?_⟩ <;> simp [loadModel, fetchWithProgress, h0, hok]
  · intro st url msg h0
    refine ⟨?_, ?_⟩ <;> simp [loadModel, fetchWithProgress, h0]
  · intro st url net ab e herr
    unfold loadModel at herr ⊢
    cases hm : mapGet st.loadedModels url with
    | some cached => rfl
    | none =>
      rw [hm] at herr
      cases hf : fetchWithProgress net ab with
      | error e' => cases e' <;> rfl
      | ok pr =>
        obtain ⟨⟨status, statusText⟩, events⟩ := pr
        rw [hf] at herr
        by_cases hok : respOk status = true
        · simp [hok] at herr
        · simp [hok]

/-- C5: cancelling while a `load(u)` for an uncached `u` is in flight makes
that call fail with an AbortError, clears the currently-loading marker, and
leaves no cache entry for `u`; invoking `cancelCurrentLoad` with no abort
controller installed changes nothing. -/
theorem cancelCurrentLoad_aborts_or_noop :
    (∀ (st : LoaderState) (url : String) (net : NetBehavior),
       mapGet st.loadedModels url = none →
       (loadModel st url net true).result = .error .abortError ∧
       (loadModel st url net true).state.currentLoadingModel = none ∧
       mapGet (loadModel st url net true).state.loadedModels url = none) ∧
    (∀ st : LoaderState, st.abortController = false → cancelCurrentLoad st = st) := by
  constructor
  · intro st url net h0
    refine ⟨?_, ?_, ?_⟩ <;> simp [loadModel, fetchWithProgress, h0]
  · intro st hctl
    simp [cancelCurrentLoad, hctl]

/-- The reported percentage is monotone in the received byte count. -/
lemma progressPercent_mono (total : Nat) {a b : Nat} (h : a ≤ b) :
    progressPercent a total ≤ progressPercent b total :=
  Nat.div_le_div_right (by omega)

/-- When all declared bytes have been received, the reported percentage is
exactly 100. -/
lemma progressPercent_complete (total : Nat) (h : 0 < total) :
    progressPercent total total = 100 := by
  unfold progressPercent
  have hrw : 200 * total + total = 2 * total * 100 + total := by ring
  rw [hrw, Nat.mul_add_div (by omega), Nat.div_eq_of_lt (by omega)]

/-- One progress value is reported per chunk. -/
lemma progressEvents_length (total : Nat) :
    ∀ (chunks : List Nat) (r : Nat),
      (progressEvents total chunks r).length = chunks.length
  | [], _ => rfl
  | _ :: rest, r => by
    simp [progressEvents, progressEvents_length total rest]

/-- The reported progress values are non-decreasing. -/
lemma progressEvents_chain (total : Nat) :
    ∀ (chunks : List Nat) (r : Nat),
      List.Chain' (· ≤ ·) (progressEvents total chunks r)
  | [], _ => List.chain'_nil
  | [_], _ => by simp [progressEvents]
  | c₁ :: c₂ :: rest, r => by
    have ih := progressEvents_chain total (c₂ :: rest) (r + c₁)
    simp only [progressEvents] at ih ⊢
    exact List.Chain'.cons (progressPercent_mono total (by omega)) ih

/-- The last reported progress value is the percentage at the full cumulative
byte count. -/
lemma progressEvents_getLast (total : Nat) :
    ∀ (chunks : List Nat) (r : Nat), chunks ≠ [] →
      (progressEvents total chunks r).getLast? =
        some (progressPercent (r + chunks.sum) total)
  | [], _, hne => absurd rfl hne
  | [c], r, _ => by simp [progressEvents]
  | c₁ :: c₂ :: rest, r, _ => by
    have ih := progressEvents_getLast total (c₂ :: rest) (r + c₁) (by simp)
    simp only [progressEvents] at ih ⊢
    rw [List.getLast?_cons_cons, ih]
    have harg : r + c₁ + (c₂ :: rest).sum = r + (c₁ + (c₂ :: rest).sum) := by omega
    rw [harg]
    simp [List.sum_cons]

/-- C3: with a declared total equal to the delivered byte count, the progress
callback fires once per chunk with the rounded integer percentage, the values
are non-decreasing and end at 100; in particular a 1,000,000-byte body in
four 250,000-byte chunks reports 25, 50, 75, 100; and with no declared
`content-length` no progress is reported but the load still completes. -/
theorem fetchWithProgress_progress_spec :
    (∀ (total : Nat) (chunks : List Nat), 0 < total → chunks.sum = total →
       chunks ≠ [] →
       (progressEvents total chunks 0).length = chunks.length ∧
       List.Chain' (· ≤ ·) (progressEvents total chunks 0) ∧
       (progressEvents total chunks 0).getLast? = some 100) ∧
    (∀ (status : Nat) (statusText : String) (total : Nat) (chunks : List Nat),
       respOk status = true →
       fetchWithProgress (.response status statusText (some total) chunks) false =
         .ok ((status, statusText), progressEvents total chunks 0)) ∧
    progressEvents 1000000 [250000, 250000, 250000, 250000] 0 = [25, 50, 75, 100] ∧
    (∀ (st : LoaderState) (url : String) (status : Nat) (statusText : String)
       (chunks : List Nat),
       mapGet st.loadedModels url = none → respOk status = true →
       (loadModel st url (.response status statusText none chunks) false).result =
         .ok (createObjectURL url) ∧
       (loadModel st url (.response status statusText none chunks) false).progress
         = []) := by
  refine ⟨?_, ?_, ?_, ?_⟩
  · intro total chunks hpos hsum hne
    refine ⟨progressEvents_length total chunks 0, progressEvents_chain total chunks 0, ?_⟩
    rw [progressEvents_getLast total chunks 0 hne]
    rw [Nat.zero_add, hsum, progressPercent_complete total hpos]
  · intro status statusText total chunks hok
    simp [fetchWithProgress, hok]
  · rfl
  · intro st url status statusText chunks h0 hok
    refine ⟨?_, ?_⟩ <;> simp [loadModel, fetchWithProgress, h0, hok]

/-- Witness for C2: a fresh loader, URL `u`, a 4-byte body in two chunks;
the second `loadModel` call hits the cache and no second request is made. -/
theorem loadModel_idempotent_cached_witness :
    mapGet (loadModel ⟨[], none, 0, false⟩ "u"
      (.response 200 "OK" (some 4) [2, 2]) false).state.loadedModels "u" =
      some "blob:u" ∧
    loadModel (loadModel ⟨[], none, 0, false⟩ "u"
        (.response 200 "OK" (some 4) [2, 2]) false).state "u"
        (.response 200 "OK" (some 4) [2, 2]) false =
      ⟨(loadModel ⟨[], none, 0, false⟩ "u"
          (.response 200 "OK" (some 4) [2, 2]) false).state, .ok "blob:u", 0, []⟩ ∧
    (loadModel ⟨[], none, 0, false⟩ "u"
        (.response 200 "OK" (some 4) [2, 2]) false).networkRequests +
      (loadModel (loadModel ⟨[], none, 0, false⟩ "u"
          (.response 200 "OK" (some 4) [2, 2]) false).state "u"
          (.response 200 "OK" (some 4) [2, 2]) false).networkRequests = 1 :=
  loadModel_idempotent_cached ⟨[], none, 0, false⟩ "u"
    (.response 200 "OK" (some 4) [2, 2]) (.response 200 "OK" (some 4) [2, 2])
    false false "blob:u" rfl rfl

/-- Witness for C3: the progress properties at total 1,000,000 delivered in
four 250,000-byte chunks, and a no-content-length load that still completes. -/
theorem fetchWithProgress_progress_spec_witness :
    ((progressEvents 1000000 [250000, 250000, 250000, 250000] 0).length = 4 ∧
     List.Chain' (· ≤ ·) (progressEvents 1000000 [250000, 250000, 250000, 250000] 0) ∧
     (progressEvents 1000000 [250000, 250000, 250000, 250000] 0).getLast? = some 100) ∧
    fetchWithProgress (.response 200 "OK" (some 1000000)
        [250000, 250000, 250000, 250000]) false =
      .ok ((200, "OK"),
        progressEvents 1000000 [250000, 250000, 250000, 250000] 0) ∧
    ((loadModel ⟨[], none, 0, false⟩ "u" (.response 200 "OK" none [2, 2]) false).result
        = .ok (createObjectURL "u") ∧
     (loadModel ⟨[], none, 0, false⟩ "u" (.response 200 "OK" none [2, 2]) false).progress
        = []) :=
  ⟨fetchWithProgress_progress_spec.1 1000000 [250000, 250000, 250000, 250000]
      (by decide) (by decide) (by decide),
   fetchWithProgress_progress_spec.2.1 200 "OK" 1000000
      [250000, 250000, 250000, 250000] rfl,
   fetchWithProgress_progress_spec.2.2.2 ⟨[], none, 0, false⟩ "u" 200 "OK" [2, 2]
      rfl rfl⟩

/-- Witness for C4: a 404 response and a transport failure on a fresh loader
leave the cache without an entry for the URL. -/
theorem loadModel_failure_leaves_no_cache_entry_witness :
    ((loadModel ⟨[], none, 0, false⟩ "u" (.response 404 "Not Found" none []) false).result
        = .error (.httpError 404 "Not Found") ∧
     mapGet (loadModel ⟨[], none, 0, false⟩ "u"
        (.response 404 "Not Found" none []) false).state.loadedModels "u" = none) ∧
    ((loadModel ⟨[], none, 0, false⟩ "u" (.transportFail "connection reset") false).result
        = .error (.transportFail "connection reset") ∧
     mapGet (loadModel ⟨[], none, 0, false⟩ "u"
        (.transportFail "connection reset") false).state.loadedModels "u" = none) ∧
    (loadModel ⟨[], none, 0, false⟩ "u"
        (.transportFail "connection reset") false).state.loadedModels = [] :=
  ⟨loadModel_failure_leaves_no_cache_entry.1 ⟨[], none, 0, false⟩ "u" 404
      "Not Found" none [] rfl rfl,
   loadModel_failure_leaves_no_cache_entry.2.1 ⟨[], none, 0, false⟩ "u"
      "connection reset" rfl,
   loadModel_failure_leaves_no_cache_entry.2.2 ⟨[], none, 0, false⟩ "u"
      (.transportFail "connection reset") false (.transportFail "connection reset") rfl⟩

/-- Witness for C5: aborting an in-flight load of an uncached URL yields an
AbortError, clears the loading marker, caches nothing; and cancelling with no
abort controller installed is the identity. -/
theorem cancelCurrentLoad_aborts_or_noop_witness :
    ((loadModel ⟨[], none, 0, false⟩ "u"
        (.response 200 "OK" (some 4) [2, 2]) true).result = .error .abortError ∧
     (loadModel ⟨[], none, 0, false⟩ "u"
        (.response 200 "OK" (some 4) [2, 2]) true).state.currentLoadingModel = none ∧
     mapGet (loadModel ⟨[], none, 0, false⟩ "u"
        (.response 200 "OK" (some 4) [2, 2]) true).state.loadedModels "u" = none) ∧
    cancelCurrentLoad ⟨[], none, 0, false⟩ = ⟨[], none, 0, false⟩ :=
  ⟨cancelCurrentLoad_aborts_or_noop.1 ⟨[], none, 0, false⟩ "u"
      (.response 200 "OK" (some 4) [2, 2]) rfl,
   cancelCurrentLoad_aborts_or_noop.2 ⟨[], none, 0, false⟩ rfl⟩

/-! ## Gestures — `GestureHandler` (src/modules/gesture-handler.js) and
`CONFIG.gestures` (src/config/config.js) -/

/-- A 3-component vector (position, rotation, scale attribute values),
with components as exact rationals. -/
structure Vec3 where
  x : ℚ
  y : ℚ
  z : ℚ
deriving DecidableEq, Repr

/-- `CONFIG.gestures.rotation`: enabled flag, speed, and the rotation axis
mode (`"y"` or `"xy"`). -/
structure RotationGesturesConfig where
  enabled : Bool
  speed : ℚ
  axis : String
deriving DecidableEq, Repr

/-- `CONFIG.gestures.scale`: enabled flag and the scale clamp range and
speed. -/
structure ScaleGesturesConfig where
  enabled : Bool
  min : ℚ
  max : ℚ
  speed : ℚ
deriving DecidableEq, Repr

/-- `CONFIG.gestures`. -/
structure GesturesConfig where
  rotation : RotationGesturesConfig
  scale : ScaleGesturesConfig
deriving DecidableEq, Repr

/-- The literal `CONFIG.gestures` of src/config/config.js: rotation enabled
at speed 0.5 around the Y axis only; scale enabled with clamp range
[0.05, 2.0] and speed 0.01 (decimal literals read as exact rationals). -/
def CONFIG_gestures : GesturesConfig :=
  { rotation := { enabled := true, speed := 1/2, axis := "y" },
    scale := { enabled := true, min := 1/20, max := 2, speed := 1/100 } }

/-- The gesture-relevant mutable fields of `GestureHandler`. -/
structure GestureHandler where
  isRotating : Bool
  isScaling : Bool
  lastTouchX : ℚ
  lastTouchY : ℚ
  lastDistance : ℚ
deriving DecidableEq, Repr

/-- `GestureHandler.handleRotation(touch)`: the drag delta against the last
touch point rotates the model — only yaw when `axis === 'y'`, yaw and pitch
when `axis === 'xy'` — and the last touch point is updated. -/
def handleRotation (cfg : GesturesConfig) (g : GestureHandler) (rotation : Vec3)
    (touchX touchY : ℚ) : GestureHandler × Vec3 :=
  let deltaX := touchX - g.lastTouchX
  let deltaY := touchY - g.lastTouchY
  let rotationSpeed := cfg.rotation.speed
  let rotation' :=
    if cfg.rotation.axis = "y" then
      { rotation with y := rotation.y - deltaX * rotationSpeed }
    else if cfg.rotation.axis = "xy" then
      { rotation with
          y := rotation.y - deltaX * rotationSpeed
          x := rotation.x + deltaY * rotationSpeed }
    else rotation
  ({ g with lastTouchX := touchX, lastTouchY := touchY }, rotation')

/-- `GestureHandler.handleScale(touch1, touch2)` given the current two-finger
distance: if the recorded previous distance is zero, only record the new
distance; otherwise scale every axis by the speed-amplified factor, clamp
each axis to `[min, max]`, and record the new distance. -/
def handleScale (cfg : GesturesConfig) (g : GestureHandler) (scale : Vec3)
    (distance : ℚ) : GestureHandler × Vec3 :=
  if g.lastDistance = 0 then
    ({ g with lastDistance := distance }, scale)
  else
    let scaleFactor := distance / g.lastDistance
    let scaleSpeed := cfg.scale.speed
    let factor := 1 + (scaleFactor - 1) * scaleSpeed * 10
    let newScale : Vec3 :=
      { x := scale.x * factor, y := scale.y * factor, z := scale.z * factor }
    let minScale := cfg.scale.min
    let maxScale := cfg.scale.max
    let clamped : Vec3 :=
      { x := max minScale (min maxScale newScale.x)
        y := max minScale (min maxScale newScale.y)
        z := max minScale (min maxScale newScale.z) }
    ({ g with lastDistance := distance }, clamped)

/-- A sequence of scale move events (two-finger distances) applied in order. -/
def applyScaleGestures (cfg : GesturesConfig) :
    GestureHandler → Vec3 → List ℚ → GestureHandler × Vec3
  | g, s, [] => (g, s)
  | g, s, d :: rest =>
    let p := handleScale cfg g s d
    applyScaleGestures cfg p.1 p.2 rest

/-- A sequence of rotation move events (touch points) applied in order. -/
def applyRotationGestures (cfg : GesturesConfig) :
    GestureHandler → Vec3 → List (ℚ × ℚ) → GestureHandler × Vec3
  | g, r, [] => (g, r)
  | g, r, t :: rest =>
    let p := handleRotation cfg g r t.1 t.2
    applyRotationGestures cfg p.1 p.2 rest

/-- Every per-axis scale component stays in the configured clamp range. -/
def inScaleRange (cfg : GesturesConfig) (v : Vec3) : Prop :=
  (cfg.scale.min ≤ v.x ∧ v.x ≤ cfg.scale.max) ∧
  (cfg.scale.min ≤ v.y ∧ v.y ≤ cfg.scale.max) ∧
  (cfg.scale.min ≤ v.z ∧ v.z ≤ cfg.scale.max)

/-- One scale step preserves the clamp range (when the range is nonempty). -/
lemma handleScale_inScaleRange (cfg : GesturesConfig)
    (hc : cfg.scale.min ≤ cfg.scale.max) (g : GestureHandler) (s : Vec3)
    (d : ℚ) (hs : inScaleRange cfg s) :
    inScaleRange cfg (handleScale cfg g s d).2 := by
  unfold handleScale
  by_cases h0 : g.lastDistance = 0
  · simpa [h0] using hs
  · simp only [h0, if_false]
    refine ⟨⟨le_max_left _ _, max_le hc (min_le_left _ _)⟩,
            ⟨le_max_left _ _, max_le hc (min_le_left _ _)⟩,
            ⟨le_max_left _ _, max_le hc (min_le_left _ _)⟩⟩

/-- C6: if every scale component starts within the configured `[min, max]`
range, then after every step of any sequence of scale gestures every
component is still within `[min, max]` — growing gestures never exceed the
maximum and shrinking gestures never go below the minimum. -/
theorem handleScale_clamp_invariant (cfg : GesturesConfig)
    (hc : cfg.scale.min ≤ cfg.scale.max) :
    ∀ (ds : List ℚ) (g : GestureHandler) (s : Vec3), inScaleRange cfg s →
      inScaleRange cfg (applyScaleGestures cfg g s ds).2 := by
  intro ds
  induction ds with
  | nil => intro g s hs; exact hs
  | cons d rest ih =>
    intro g s hs
    exact ih (handleScale cfg g s d).1 (handleScale cfg g s d).2
      (handleScale_inScaleRange cfg hc g s d hs)

/-- Witness for C6: from scale (1, 1, 1) under the shipped configuration, a
strongly growing and then shrinking distance sequence keeps every component
inside [0.05, 2]. -/
theorem handleScale_clamp_invariant_witness :
    ((CONFIG_gestures.scale.min ≤ CONFIG_gestures.scale.max) ∧
      inScaleRange CONFIG_gestures ⟨1, 1, 1⟩) ∧
    inScaleRange CONFIG_gestures
      (applyScaleGestures CONFIG_gestures ⟨false, true, 0, 0, 1⟩ ⟨1, 1, 1⟩
        [100, 200, 1, 1/2]).2 :=
  ⟨⟨by norm_num [CONFIG_gestures], by norm_num [inScaleRange, CONFIG_gestures]⟩,
   handleScale_clamp_invariant CONFIG_gestures
     (by norm_num [CONFIG_gestures]) [100, 200, 1, 1/2]
     ⟨false, true, 0, 0, 1⟩ ⟨1, 1, 1⟩
     (by norm_num [inScaleRange, CONFIG_gestures])⟩

/-- C9: in the single-axis rotation mode (`axis = "y"`), a rotation move
whose drag has no horizontal component (touch X equal to the recorded last
touch X) leaves the pitch (x rotation) unchanged; and over any sequence of
move events only yaw is modified — pitch and roll are invariant. -/
theorem handleRotation_y_axis_only (cfg : GesturesConfig)
    (haxis : cfg.rotation.axis = "y") :
    (∀ (g : GestureHandler) (rotation : Vec3) (touchY : ℚ),
       ((handleRotation cfg g rotation g.lastTouchX touchY).2).x = rotation.x) ∧
    (∀ (moves : List (ℚ × ℚ)) (g : GestureHandler) (rotation : Vec3),
       ((applyRotationGestures cfg g rotation moves).2).x = rotation.x ∧
       ((applyRotationGestures cfg g rotation moves).2).z = rotation.z) := by
  constructor
  · intro g rotation touchY
    simp [handleRotation, haxis]
  · intro moves
    induction moves with
    | nil => intro g rotation; exact ⟨rfl, rfl⟩
    | cons t rest ih =>
      intro g rotation
      have hstep : ((handleRotation cfg g rotation t.1 t.2).2).x = rotation.x ∧
          ((handleRotation cfg g rotation t.1 t.2).2).z = rotation.z := by
        constructor <;> simp [handleRotation, haxis]
      have := ih (handleRotation cfg g rotation t.1 t.2).1
        (handleRotation cfg g rotation t.1 t.2).2
      exact ⟨by rw [applyRotationGestures]; rw [this.1, hstep.1],
             by rw [applyRotationGestures]; rw [this.2, hstep.2]⟩

/-- Witness for C9: under the shipped configuration (axis `"y"`), a
vertical-only move from (3, 4) keeps pitch at 5, and a two-move sequence
keeps pitch 5 and roll 9. -/
theorem handleRotation_y_axis_only_witness :
    ((handleRotation CONFIG_gestures ⟨true, false, 3, 4, 0⟩ ⟨5, 7, 9⟩ 3 42).2).x = 5 ∧
    (((applyRotationGestures CONFIG_gestures ⟨true, false, 3, 4, 0⟩ ⟨5, 7, 9⟩
        [(1, 2), (30, 40)]).2).x = 5 ∧
     ((applyRotationGestures CONFIG_gestures ⟨true, false, 3, 4, 0⟩ ⟨5, 7, 9⟩
        [(1, 2), (30, 40)]).2).z = 9) :=
  ⟨(handleRotation_y_axis_only CONFIG_gestures rfl).1 ⟨true, false, 3, 4, 0⟩ ⟨5, 7, 9⟩ 42,
   (handleRotation_y_axis_only CONFIG_gestures rfl).2 [(1, 2), (30, 40)]
     ⟨true, false, 3, 4, 0⟩ ⟨5, 7, 9⟩⟩

/-- C10: if the recorded previous two-finger distance is zero when a scale
move arrives, `handleScale` only records the new distance and returns the
model scale unchanged, so the scale-factor division never has a zero
divisor. -/
theorem handleScale_zero_distance_guard (cfg : GesturesConfig)
    (g : GestureHandler) (scale : Vec3) (distance : ℚ)
    (h0 : g.lastDistance = 0) :
    handleScale cfg g scale distance = ({ g with lastDistance := distance }, scale) := by
  simp [handleScale, h0]

/-- Witness for C10: with a zero recorded distance, a move at distance 37
only records 37 and leaves the scale (1, 2, 3) untouched. -/
theorem handleScale_zero_distance_guard_witness :
    (⟨false, true, 0, 0, 0⟩ : GestureHandler).lastDistance = 0 ∧
    handleScale CONFIG_gestures ⟨false, true, 0, 0, 0⟩ ⟨1, 2, 3⟩ 37 =
      (⟨false, true, 0, 0, 37⟩, ⟨1, 2, 3⟩) :=
  ⟨rfl, handleScale_zero_distance_guard CONFIG_gestures ⟨false, true, 0, 0, 0⟩
    ⟨1, 2, 3⟩ 37 rfl⟩

/-! ## Orchestrator — `WebARApp.reloadModel` / `WebARApp.clearModel` (src/app.js) -/

/-- The placed model entity: its `gltf-model` URL and its transform
attributes (position, scale, rotation). -/
structure ModelEntity where
  gltfModel : String
  position : Vec3
  scale : Vec3
  rotation : Vec3
deriving DecidableEq, Repr

/-- The rotation attribute of a freshly created `a-entity` on which no
rotation was ever set: the scene-graph default `0 0 0`. -/
def defaultRotation : Vec3 := ⟨0, 0, 0⟩

/-- The orchestrator state relevant to clear/reload: the at-most-one
currently placed model instance. -/
structure WebARApp where
  currentModel : Option ModelEntity
deriving DecidableEq, Repr

/-- `WebARApp.clearModel`: remove the current instance, if any. -/
def clearModel (app : WebARApp) : WebARApp :=
  match app.currentModel with
  | some _ => { app with currentModel := none }
  | none => app

/-- `WebARApp.reloadModel`: read `gltf-model`, `position` and `scale` from
the current instance (the code reads no other attribute), clear it, and
append a freshly created entity carrying those three attributes; the new
entity's rotation is never set, so it keeps the default. -/
def reloadModel (app : WebARApp) : WebARApp :=
  match app.currentModel with
  | none => app
  | some m =>
    let modelUrl := m.gltfModel
    let position := m.position
    let scale := m.scale
    let app₁ := clearModel app
    let modelEntity : ModelEntity :=
      { gltfModel := modelUrl, position := position, scale := scale,
        rotation := defaultRotation }
    { app₁ with currentModel := some modelEntity }

/-- Counterexample for C7: for a placed model rotated to yaw 90, the
recreated instance after `reloadModel` does not carry the destroyed
instance's transform — its rotation is reset to the default, not 90. -/
theorem reloadModel_rotation_counterexample :
    ¬ ((reloadModel
        { currentModel := some
            { gltfModel := "/models/house1.glb", position := ⟨0, 0, -2⟩,
              scale := ⟨1/10, 1/10, 1/10⟩, rotation := ⟨0, 90, 0⟩ } }).currentModel =
       some { gltfModel := "/models/house1.glb", position := ⟨0, 0, -2⟩,
              scale := ⟨1/10, 1/10, 1/10⟩, rotation := ⟨0, 90, 0⟩ }) := by
  norm_num [reloadModel, clearModel, defaultRotation]

/-- C7 (amended): `reloadModel` destroys the current instance and recreates
exactly one new instance carrying the previous instance's model URL,
position and scale; the rotation is not read and the recreated instance has
the default rotation `0 0 0`. -/
theorem reloadModel_preserves_url_position_scale (app : WebARApp)
    (m : ModelEntity) (h : app.currentModel = some m) :
    (reloadModel app).currentModel =
      some { gltfModel := m.gltfModel, position := m.position, scale := m.scale,
             rotation := defaultRotation } := by
  simp [reloadModel, clearModel, h]

/-- Witness for C7 (amended): reloading the rotated house model yields one
instance with the same URL, position and scale and rotation reset. -/
theorem reloadModel_preserves_url_position_scale_witness :
    (reloadModel
        { currentModel := some
            { gltfModel := "/models/house1.glb", position := ⟨0, 0, -2⟩,
              scale := ⟨1/10, 1/10, 1/10⟩, rotation := ⟨0, 90, 0⟩ } }).currentModel =
      some { gltfModel := "/models/house1.glb", position := ⟨0, 0, -2⟩,
             scale := ⟨1/10, 1/10, 1/10⟩, rotation := defaultRotation } :=
  reloadModel_preserves_url_position_scale
    { currentModel := some
        { gltfModel := "/models/house1.glb", position := ⟨0, 0, -2⟩,
          scale := ⟨1/10, 1/10, 1/10⟩, rotation := ⟨0, 90, 0⟩ } }
    { gltfModel := "/models/house1.glb", position := ⟨0, 0, -2⟩,
      scale := ⟨1/10, 1/10, 1/10⟩, rotation := ⟨0, 90, 0⟩ } rfl

/-! ## Tap-to-place — `ARSession.onSelect` (src/modules/ar-session.js) -/

/-- The observable effect of one `onSelect` call: the pose passed to the
`onPlace` callback (if invoked), whether a warning was logged, and whether
the hit marker was hidden. -/
structure SelectOutcome where
  placeEvent : Option Vec3
  warned : Bool
  markerHidden : Bool
deriving DecidableEq, Repr

/-- `ARSession.onSelect(event)`: if a last-known hit position exists and an
`onPlace` callback is set, emit the place event with that pose and hide the
marker; otherwise log a warning and do nothing else. -/
def onSelect (lastHitPosition : Option Vec3) (hasOnPlaceCallback : Bool) :
    SelectOutcome :=
  match lastHitPosition, hasOnPlaceCallback with
  | some position, true =>
    { placeEvent := some position, warned := false, markerHidden := true }
  | some _, false => { placeEvent := none, warned := true, markerHidden := false }
  | none, _ => { placeEvent := none, warned := true, markerHidden := false }

/-- C8: a tap with a last-known hit emits a place event carrying exactly that
hit's pose (no warning); a tap with no last-known hit emits no place event,
changes nothing else, and is reported only as a warning. -/
theorem onSelect_place_or_warn :
    (∀ position : Vec3,
       onSelect (some position) true =
         { placeEvent := some position, warned := false, markerHidden := true }) ∧
    (∀ hasCallback : Bool,
       onSelect none hasCallback =
         { placeEvent := none, warned := true, markerHidden := false }) := by
  exact ⟨fun _ => rfl, fun hasCallback => by cases hasCallback <;> rfl⟩
